import Mathlib

/-!
Verification of the NBA quant prediction-and-model-lifecycle engine.

The Python sources under app/ are shallowly embedded: floats become
rationals, dictionaries become association lists, fallible calls become
Except/Option, and external collaborators (database rows, the numpy
standard-normal stream, the sklearn estimator fitting, the Supabase
artifact store) are passed in as explicit data or function parameters.
Every definition is translated from the corresponding function of the
repository; the parameters standing for external collaborators are
universally quantified in the theorems, so nothing proved depends on a
particular choice for them.
-/

namespace NbaQuant

/-! ## Generic numeric and string helpers (numpy / Python built-ins) -/

/-- Test whether the character list `pat` occurs contiguously inside the
second list; used to embed the Python substring operator. -/
def containsSeq (pat : List Char) : List Char → Bool
  | [] => pat.isEmpty
  | c :: t => pat.isPrefixOf (c :: t) || containsSeq pat t

/-- Embedding of the Python expression `pat in s` on strings. -/
def pyIn (pat s : String) : Bool := containsSeq pat.toList s.toList

/-- Embedding of the Python expression `s.startswith(p)`. -/
def strStarts (s p : String) : Bool := p.toList.isPrefixOf s.toList

/-- Embedding of numpy.mean on a list of rationals (junk value 0 on the
empty list, which the translated code never hits). -/
def meanQ (l : List ℚ) : ℚ := l.sum / l.length

/-- Embedding of numpy.var (population variance). -/
def varQ (l : List ℚ) : ℚ := meanQ (l.map fun x => (x - meanQ l) ^ 2)

/-- Embedding of numpy.clip for scalars. -/
def clipQ (x lo hi : ℚ) : ℚ := min (max x lo) hi

/-- Round-half-to-even on ℚ, modelling Python's built-in round. -/
def roundHalfEven (x : ℚ) : ℤ :=
  if x - ⌊x⌋ < 1/2 then ⌊x⌋
  else if 1/2 < x - ⌊x⌋ then ⌊x⌋ + 1
  else if ⌊x⌋ % 2 = 0 then ⌊x⌋ else ⌊x⌋ + 1

/-- Python round(x, 2): round to two decimal places, half to even. -/
def pyRound2 (x : ℚ) : ℚ := (roundHalfEven (x * 100) : ℚ) / 100

/-! ## rating_engine.py -/

/-- Embedding of rating_engine._edge_to_stars: staircase on the absolute
edge percentage (≥15→5, ≥12→4, ≥9→3, ≥7→2, ≥5→1, else 0). -/
def edge_to_stars (edge_pct : ℚ) : ℕ :=
  let edge := |edge_pct|
  if 15 ≤ edge then 5
  else if 12 ≤ edge then 4
  else if 9 ≤ edge then 3
  else if 7 ≤ edge then 2
  else if 5 ≤ edge then 1
  else 0

/-- The dict returned by rating_engine.compute_kelly_stake. -/
structure KellyResult where
  recommended_stake : ℚ
  bankroll_after_bet : ℚ
deriving DecidableEq, Repr

/-- Embedding of rating_engine.compute_kelly_stake (the Python defaults
odds=1.91, bankroll=10000.0, fraction=0.5 are supplied at call sites). -/
def compute_kelly_stake (probability odds bankroll fraction : ℚ) : KellyResult :=
  let numerator := probability * odds - 1
  let denominator := odds - 1
  if denominator ≤ 0 ∨ numerator ≤ 0 then
    { recommended_stake := 0, bankroll_after_bet := bankroll }
  else
    let kelly := (numerator / denominator) * fraction
    let stake := pyRound2 (bankroll * kelly)
    { recommended_stake := stake, bankroll_after_bet := pyRound2 (bankroll - stake) }

/-- Embedding of rating_engine.is_spread_correct. -/
def is_spread_correct (spread_pick : String) (margin : ℚ) (live_spread : Option ℚ) : Bool :=
  match live_spread with
  | none => false
  | some ls =>
      (!(pyIn "受让" spread_pick) && decide (0 < margin + ls)) ||
        (pyIn "受让" spread_pick && decide (margin + ls ≤ 0))

/-- Embedding of rating_engine.is_total_correct. -/
def is_total_correct (total_pick : String) (total_points : ℚ) (live_total : Option ℚ) : Bool :=
  match live_total with
  | none => false
  | some tl =>
      (total_pick == "大分" && decide (tl < total_points)) ||
        (total_pick == "小分" && decide (total_points ≤ tl))

/-! ## game_simulator.py

The numpy generator `np.random.default_rng(seed)` is a deterministic
function of its integer seed, and `rng.normal(loc, scale, n)` returns
`loc + scale * z_i` for the next `n` values `z_i` of the generator's
standard-normal stream.  The stream is modelled by an arbitrary function
`gen : ℤ → ℕ → ℚ` from (seed, stream position) to the drawn value; the
away-side batch starts at position `n_sim` because it is drawn after the
home batch from the same generator.  `np.sqrt` is modelled by an
arbitrary function `sqrtA`, since its exact value never affects the
claims proved here. -/

/-- The dict returned by game_simulator.run_possession_simulation. -/
structure SimResult where
  spread_cover_probability : ℚ
  over_probability : ℚ
  expected_home_score : ℚ
  expected_visitor_score : ℚ
  predicted_margin : ℚ
  predicted_total : ℚ
  margin_std : ℚ
  total_std : ℚ
  score_distribution_variance : ℚ
  simulation_count : ℕ

/-- Home-side sample batch of run_possession_simulation: n_sim normal
draws with mean predicted_home_score and std max(sqrt(variance), 8.0),
clipped into the 70–170 score range. -/
def sim_home_samples (gen : ℤ → ℕ → ℚ) (sqrtA : ℚ → ℚ) (game_id : ℤ)
    (mean variance : ℚ) (n_sim : ℕ) : List ℚ :=
  (List.range n_sim).map fun i =>
    clipQ (mean + max (sqrtA variance) 8 * gen (game_id % 1000000) i) 70 170

/-- Away-side sample batch, drawn from the same generator after the home
batch (stream positions n_sim, n_sim+1, ...). -/
def sim_away_samples (gen : ℤ → ℕ → ℚ) (sqrtA : ℚ → ℚ) (game_id : ℤ)
    (mean variance : ℚ) (n_sim : ℕ) : List ℚ :=
  (List.range n_sim).map fun i =>
    clipQ (mean + max (sqrtA variance) 8 * gen (game_id % 1000000) (n_sim + i)) 70 170

/-- Embedding of game_simulator.run_possession_simulation. -/
def run_possession_simulation (gen : ℤ → ℕ → ℚ) (sqrtA : ℚ → ℚ) (game_id : ℤ)
    (predicted_home_score predicted_away_score home_variance away_variance
      spread_line total_line : ℚ) (n_sim : ℕ) : SimResult :=
  let home_scores := sim_home_samples gen sqrtA game_id predicted_home_score home_variance n_sim
  let away_scores := sim_away_samples gen sqrtA game_id predicted_away_score away_variance n_sim
  let margins := List.zipWith (fun a b => a - b) home_scores away_scores
  let totals := List.zipWith (fun a b => a + b) home_scores away_scores
  { spread_cover_probability := meanQ (margins.map fun m => if 0 < m + spread_line then 1 else 0)
    over_probability := meanQ (totals.map fun t => if total_line < t then 1 else 0)
    expected_home_score := meanQ home_scores
    expected_visitor_score := meanQ away_scores
    predicted_margin := meanQ margins
    predicted_total := meanQ totals
    margin_std := sqrtA (varQ margins)
    total_std := sqrtA (varQ totals)
    score_distribution_variance := varQ totals + varQ margins
    simulation_count := n_sim }

/-! ## prediction_engine.py — hybrid blending -/

/-- Monte-Carlo weight of the hybrid blend (prediction_engine.MC_WEIGHT). -/
def MC_WEIGHT : ℚ := 0.6

/-- Classifier weight of the hybrid blend (prediction_engine.CLASSIFIER_WEIGHT). -/
def CLASSIFIER_WEIGHT : ℚ := 0.4

/-- Embedding of the hybrid spread decision of prediction_engine.run_prediction:
combined probability from the simulation probability and the optional
classifier probability (None when no classifier output is available). -/
def combined_spread_prob (mc_spread_prob : ℚ) (spread_cover_prob_model : Option ℚ) : ℚ :=
  match spread_cover_prob_model with
  | some p => MC_WEIGHT * mc_spread_prob + CLASSIFIER_WEIGHT * p
  | none => mc_spread_prob

/-- Embedding of the hybrid total decision of prediction_engine.run_prediction. -/
def combined_total_prob (mc_total_prob : ℚ) (total_over_prob_model : Option ℚ) : ℚ :=
  match total_over_prob_model with
  | some p => MC_WEIGHT * mc_total_prob + CLASSIFIER_WEIGHT * p
  | none => mc_total_prob

/-! ## feature_engineering.py -/

/-- The fixed feature schema feature_engineering.FEATURE_COLUMNS (40 names). -/
def FEATURE_COLUMNS : List String := [
  "home_off_rating", "home_def_rating", "home_net_rating",
  "away_off_rating", "away_def_rating", "away_net_rating",
  "home_pace", "away_pace", "pace_interaction",
  "home_avg_score_last5", "home_avg_allowed_last5", "home_margin_last5",
  "away_avg_score_last5", "away_avg_allowed_last5", "away_margin_last5",
  "home_avg_score_last10", "home_avg_allowed_last10", "home_margin_last10",
  "away_avg_score_last10", "away_avg_allowed_last10", "away_margin_last10",
  "home_indicator",
  "home_rest_days", "away_rest_days",
  "home_b2b", "away_b2b",
  "home_scoring_variance", "away_scoring_variance",
  "opp_home_def_eff", "opp_away_def_eff", "opp_home_off_eff", "opp_away_off_eff",
  "home_consistency", "away_consistency",
  "home_off_volatility", "away_off_volatility",
  "home_def_volatility", "away_def_volatility",
  "home_margin_trend", "away_margin_trend"]

/-- One row of feature_engineering._get_team_games: points scored/allowed
from the team's perspective, and the contest date as a day number (none
models an unparseable date, the pd.Timestamp failure path). -/
structure TeamGame where
  scored : ℚ
  allowed : ℚ
  gdate : Option ℤ

/-- Embedding of feature_engineering._compute_team_features.  The two game
lists stand for the rows the SQL query returns (newest first, at most 20);
`stdQ` models numpy.std, whose irrational value never matters to the
claims. -/
def computeTeamFeatures (games opp_games : List TeamGame) (before_date : ℤ)
    (side : String) (stdQ : List ℚ → ℚ) : List (String × ℚ) :=
  if games.isEmpty then
    (FEATURE_COLUMNS.filter fun c => strStarts c side).map (fun c => (c, (0:ℚ)))
      ++ [("opp_" ++ side ++ "_def_eff", 0), ("opp_" ++ side ++ "_off_eff", 0)]
  else
    let scores := games.map (·.scored)
    let allowedL := games.map (·.allowed)
    let avg_score := meanQ scores
    let avg_allowed := meanQ allowedL
    let avg_total := meanQ (games.map fun g => g.scored + g.allowed)
    let pace := avg_total / 2
    let off_rating := avg_score / max pace 80 * 100
    let def_rating := avg_allowed / max pace 80 * 100
    let last5 := games.take 5
    let last10 := games.take 10
    let m5 := meanQ (last5.map fun g => g.scored - g.allowed)
    let m10 := meanQ (last10.map fun g => g.scored - g.allowed)
    let rest : ℚ :=
      if 2 ≤ games.length then
        match games.head? with
        | some g0 =>
            match g0.gdate with
            | some d1 => ((max 0 (before_date - d1) : ℤ) : ℚ)
            | none => 2
        | none => 2
      else 3
    let std_score := if 2 ≤ scores.length then stdQ scores else 1
    [(side ++ "_off_rating", off_rating),
     (side ++ "_def_rating", def_rating),
     (side ++ "_net_rating", off_rating - def_rating),
     (side ++ "_pace", pace),
     (side ++ "_avg_score_last5", meanQ (last5.map (·.scored))),
     (side ++ "_avg_allowed_last5", meanQ (last5.map (·.allowed))),
     (side ++ "_margin_last5", m5),
     (side ++ "_avg_score_last10", meanQ (last10.map (·.scored))),
     (side ++ "_avg_allowed_last10", meanQ (last10.map (·.allowed))),
     (side ++ "_margin_last10", m10),
     (side ++ "_rest_days", rest),
     (side ++ "_b2b", if rest ≤ 1 then 1 else 0),
     (side ++ "_scoring_variance", if 2 ≤ scores.length then varQ scores else 0),
     (side ++ "_consistency", avg_score / max std_score (1/10)),
     (side ++ "_off_volatility", if 2 ≤ scores.length then stdQ scores else 0),
     (side ++ "_def_volatility", if 2 ≤ allowedL.length then stdQ allowedL else 0),
     (side ++ "_margin_trend", m5 - m10)]
    ++ (if opp_games.isEmpty then
          [("opp_" ++ side ++ "_def_eff", 0), ("opp_" ++ side ++ "_off_eff", 0)]
        else
          let opp_pace := meanQ (opp_games.map fun g => g.scored + g.allowed) / 2
          [("opp_" ++ side ++ "_def_eff",
             meanQ (opp_games.map (·.allowed)) / max opp_pace 80 * 100),
           ("opp_" ++ side ++ "_off_eff",
             meanQ (opp_games.map (·.scored)) / max opp_pace 80 * 100)])

/-- Embedding of prediction_engine._build_prediction_features: merge the
home and away feature dicts, force the home indicator and the pace
interaction, then reindex on the fixed schema with missing columns
filled with 0.0 (the pandas reindex/fill step). -/
def build_prediction_features (home_games away_games : List TeamGame)
    (before_date : ℤ) (stdQ : List ℚ → ℚ) : List (String × ℚ) :=
  let home_feat := computeTeamFeatures home_games away_games before_date "home" stdQ
  let away_feat := computeTeamFeatures away_games home_games before_date "away" stdQ
  let base := away_feat ++ home_feat
  let home_pace := (base.lookup "home_pace").getD 98
  let away_pace := (base.lookup "away_pace").getD 98
  let row := ("pace_interaction", home_pace * away_pace / 100) ::
    ("home_indicator", (1:ℚ)) :: base
  FEATURE_COLUMNS.map fun c => (c, (row.lookup c).getD 0)

/-! ## retrain_engine.py -/

/-- Accuracy threshold retrain_engine.PERFORMANCE_THRESHOLD. -/
def PERFORMANCE_THRESHOLD : ℚ := 0.45

/-- Minimum batch of new finished games retrain_engine.MIN_RETRAIN_GAMES. -/
def MIN_RETRAIN_GAMES : ℕ := 50

/-- One row of the join the degradation check queries: a final prediction
snapshot joined with the game's recorded result. -/
structure PredRow where
  spread_pick : String
  total_pick : String
  live_spread : Option ℚ
  live_total : Option ℚ
  final_home_score : ℚ
  final_visitor_score : ℚ

/-- Loop body of _check_performance_degradation: accumulate (hits, total)
over one joined row, counting a row's spread (resp. total) leg only when
its live line is non-null. -/
def degStep (acc : ℕ × ℕ) (r : PredRow) : ℕ × ℕ :=
  let margin := r.final_home_score - r.final_visitor_score
  let total_pts := r.final_home_score + r.final_visitor_score
  let acc1 :=
    match r.live_spread with
    | some _ =>
        ((acc.1 + if is_spread_correct r.spread_pick margin r.live_spread then 1 else 0),
          acc.2 + 1)
    | none => acc
  match r.live_total with
  | some _ =>
      ((acc1.1 + if is_total_correct r.total_pick total_pts r.live_total then 1 else 0),
        acc1.2 + 1)
  | none => acc1

/-- The (hits, total) accumulation of _check_performance_degradation. -/
def degradationCounts (rows : List PredRow) : ℕ × ℕ :=
  rows.foldl degStep (0, 0)

/-- Embedding of retrain_engine._check_performance_degradation.  The input
is the result of the top-30 final-predictions join; none models the query
raising (the exception is caught and the function returns False). -/
def check_performance_degradation (queryRows : Option (List PredRow)) : Bool :=
  match queryRows with
  | none => false
  | some rows =>
      if rows.length < 10 then false
      else
        let hits := (degradationCounts rows).1
        let total := (degradationCounts rows).2
        if total = 0 then false
        else decide ((hits : ℚ) / (total : ℚ) < PERFORMANCE_THRESHOLD)

/-- A trained model bundle; for the lifecycle claims only its identity
matters, so it is carried as its version tag. -/
structure ModelBundle where
  version : String
deriving DecidableEq

/-- Embedding of retrain_engine.should_retrain; `loaded` is the result of
load_models() and `new_games` the count of unreviewed finished games. -/
def should_retrain (force : Bool) (queryRows : Option (List PredRow))
    (new_games : ℕ) (loaded : Option ModelBundle) : Bool :=
  if force then true
  else if check_performance_degradation queryRows then true
  else decide (MIN_RETRAIN_GAMES ≤ new_games) || loaded.isNone

/-- The source tag ensure_models attaches to the bundle it returns
(the code writes the strings "cached" / "supabase" / "trained"; the
restored state is the one tagged "supabase"). -/
inductive ModelSource
  | unknown
  | cached
  | restored
  | trained
deriving DecidableEq

/-- A model bundle together with its source tag. -/
structure TaggedBundle where
  bundle : ModelBundle
  source : ModelSource
deriving DecidableEq

/-- The external state ensure_models consults: the locally cached bundle,
the outcome of the Supabase Storage restore, the unreviewed-game count,
the size of the training frame, the bundle the sklearn fit would produce,
and the outcome of the Supabase Storage upload. -/
structure LifecycleEnv where
  cached_models : Option ModelBundle
  restore_ok : Bool
  restored_models : Option ModelBundle
  new_games : ℕ
  training_rows : ℕ
  fitted_bundle : ModelBundle
  upload_ok : Bool

/-- Embedding of prediction_models.train_models: the guard on the feature
schema width is translated literally; the sklearn estimator fitting is an
external collaborator, so the resulting bundle is supplied as `fitted`. -/
def train_models (feature_cols : List String) (fitted : ModelBundle) :
    Except String ModelBundle :=
  if feature_cols.length < 30 then
    .error "Feature count < 30 - pipeline requires minimum 30 features"
  else .ok fitted

/-- Steps 4 of retrain_engine.ensure_models: build the training frame,
fail on an empty frame, train, and fail when the Supabase upload fails. -/
def ensure_models_train (feature_cols : List String) (env : LifecycleEnv) :
    Except String TaggedBundle :=
  if env.training_rows = 0 then .error "No historical data available for training"
  else
    match train_models feature_cols env.fitted_bundle with
    | .error e => .error e
    | .ok b =>
        if env.upload_ok then .ok ⟨b, .trained⟩
        else .error "Failed to upload models to Supabase Storage"

/-- Step 3 of retrain_engine.ensure_models: with a cached bundle present
and fewer than MIN_RETRAIN_GAMES new finished games, reuse the cached
bundle instead of retraining. -/
def ensure_models_step3 (feature_cols : List String) (env : LifecycleEnv) :
    Except String TaggedBundle :=
  match env.cached_models with
  | some c =>
      if env.new_games < MIN_RETRAIN_GAMES then .ok ⟨c, .cached⟩
      else ensure_models_train feature_cols env
  | none => ensure_models_train feature_cols env

/-- Step 2 of retrain_engine.ensure_models: try restoring a bundle from
Supabase Storage (a raising download is caught and treated as failure),
then fall through to step 3. -/
def ensure_models_restore (feature_cols : List String) (env : LifecycleEnv) :
    Except String TaggedBundle :=
  if env.restore_ok then
    match env.restored_models with
    | some r => .ok ⟨r, .restored⟩
    | none => ensure_models_step3 feature_cols env
  else ensure_models_step3 feature_cols env

/-- Embedding of retrain_engine.ensure_models: return the cached bundle
unless forced, otherwise go through restore, the new-game gate and
training. -/
def ensure_models (feature_cols : List String) (env : LifecycleEnv) (force : Bool) :
    Except String TaggedBundle :=
  match env.cached_models with
  | some c =>
      if force then ensure_models_restore feature_cols env else .ok ⟨c, .cached⟩
  | none => ensure_models_restore feature_cols env

/-! ## supabase_client.py — prediction persistence -/

/-- One row of the Supabase predictions table, reduced to the fields the
at-most-one-final invariant is about: the game id and the
is_final_prediction flag stored in the payload. -/
structure StoredPrediction where
  game_id : ℕ
  is_final_prediction : Bool
deriving DecidableEq

/-- Embedding of supabase_client.save_prediction: insert a new row whose
payload carries is_final_prediction = True; no existing row is updated. -/
def save_prediction (table : List StoredPrediction) (game_id : ℕ) :
    List StoredPrediction :=
  table ++ [{ game_id := game_id, is_final_prediction := true }]

/-- Number of stored rows for a game that are marked final. -/
def count_final (table : List StoredPrediction) (g : ℕ) : ℕ :=
  (table.filter fun p => p.game_id == g && p.is_final_prediction).length

/-! ## Helper lemmas -/

theorem roundHalfEven_nonneg {x : ℚ} (hx : 0 ≤ x) : 0 ≤ roundHalfEven x := by
  unfold roundHalfEven
  have hf : (0:ℤ) ≤ ⌊x⌋ := Int.floor_nonneg.mpr hx
  split_ifs <;> omega

theorem pyRound2_nonneg {x : ℚ} (hx : 0 ≤ x) : 0 ≤ pyRound2 x := by
  unfold pyRound2
  have h : (0:ℤ) ≤ roundHalfEven (x * 100) := roundHalfEven_nonneg (by positivity)
  have h2 : (0:ℚ) ≤ (roundHalfEven (x * 100) : ℚ) := by exact_mod_cast h
  positivity

theorem roundHalfEven_le (x : ℚ) : (roundHalfEven x : ℚ) ≤ x + 1/2 := by
  unfold roundHalfEven
  have h1 : (⌊x⌋ : ℚ) ≤ x := Int.floor_le x
  split_ifs <;> first | linarith | (push_cast; linarith)

theorem lt_roundHalfEven (x : ℚ) : x - 1 < (roundHalfEven x : ℚ) := by
  unfold roundHalfEven
  have h1 : x < ⌊x⌋ + 1 := Int.lt_floor_add_one x
  have h2 : (⌊x⌋ : ℚ) ≤ x := Int.floor_le x
  split_ifs <;> first | linarith | (push_cast; linarith)

theorem pyRound2_le (x : ℚ) : pyRound2 x ≤ x + 1/200 := by
  unfold pyRound2
  have h := roundHalfEven_le (x * 100)
  have h2 : (roundHalfEven (x * 100) : ℚ) / 100 ≤ (x * 100 + 1/2) / 100 := by gcongr
  have h3 : (x * 100 + 1/2) / 100 = x + 1/200 := by ring
  linarith

theorem lt_pyRound2 (x : ℚ) : x - 1/100 < pyRound2 x := by
  unfold pyRound2
  have h := lt_roundHalfEven (x * 100)
  have h2 : (x * 100 - 1) / 100 < (roundHalfEven (x * 100) : ℚ) / 100 := by gcongr
  have h3 : (x * 100 - 1) / 100 = x - 1/100 := by ring
  linarith

theorem sum_indicator (p : ℚ → Prop) [DecidablePred p] (l : List ℚ) :
    (l.map fun x => if p x then (1:ℚ) else 0).sum =
      ((l.filter fun x => decide (p x)).length : ℚ) := by
  induction l with
  | nil => simp
  | cons a t ih =>
    by_cases h : p a
    · simp [List.filter_cons, h, ih]
      ring
    · simp [List.filter_cons, h, ih]

theorem meanQ_indicator (p : ℚ → Prop) [DecidablePred p] (l : List ℚ) :
    meanQ (l.map fun x => if p x then (1:ℚ) else 0) =
      ((l.filter fun x => decide (p x)).length : ℚ) / (l.length : ℚ) := by
  unfold meanQ
  rw [sum_indicator, List.length_map]

theorem clipQ_bounds (x lo hi : ℚ) (h : lo ≤ hi) :
    lo ≤ clipQ x lo hi ∧ clipQ x lo hi ≤ hi :=
  ⟨le_min (le_max_right _ _) h, min_le_right _ _⟩

theorem lookup_map_pair {β : Type} (f : String → β) (l : List String) (c : String)
    (hc : c ∈ l) : (l.map fun x => (x, f x)).lookup c = some (f c) := by
  induction l with
  | nil => cases hc
  | cons a t ih =>
    by_cases hca : c = a
    · subst hca
      simp [List.lookup]
    · rcases List.mem_cons.mp hc with h | h
      · exact absurd h hca
      · have hb : (c == a) = false := beq_eq_false_iff_ne.mpr hca
        simp [List.lookup, hb, ih h]

theorem lookup_map_zero_append (l : List String) (rest : List (String × ℚ)) (c : String)
    (hc : c ∈ l) : ((l.map fun x => (x, (0:ℚ))) ++ rest).lookup c = some 0 := by
  induction l with
  | nil => cases hc
  | cons a t ih =>
    by_cases hca : c = a
    · subst hca
      simp [List.lookup]
    · rcases List.mem_cons.mp hc with h | h
      · exact absurd h hca
      · have hb : (c == a) = false := beq_eq_false_iff_ne.mpr hca
        simp [List.lookup, hb, ih h]

theorem degStep_skip {r : PredRow} (h1 : r.live_spread = none)
    (h2 : r.live_total = none) (acc : ℕ × ℕ) : degStep acc r = acc := by
  simp [degStep, h1, h2]

theorem foldl_degStep_const (rows : List PredRow)
    (h : ∀ r ∈ rows, r.live_spread = none ∧ r.live_total = none) :
    ∀ acc, rows.foldl degStep acc = acc := by
  induction rows with
  | nil => intro acc; rfl
  | cons a t ih =>
    intro acc
    have ha := h a (List.mem_cons_self a t)
    rw [List.foldl_cons, degStep_skip ha.1 ha.2]
    exact ih (fun r hr => h r (List.mem_cons_of_mem a hr)) acc

theorem check_perf_lt10 (rows : List PredRow) (h : rows.length < 10) :
    check_performance_degradation (some rows) = false := by
  simp [check_performance_degradation, h]

theorem map_fst_pairs {β : Type} (f : String → β) (l : List String) :
    ((l.map fun x => (x, f x)).map Prod.fst) = l := by
  induction l with
  | nil => rfl
  | cons a t ih => simp [ih]

/-! ## Claim theorems -/

/-- C9: rating_engine._edge_to_stars is the stated deterministic staircase
on the absolute edge (≥15→5, ≥12→4, ≥9→3, ≥7→2, ≥5→1, else 0), hence
monotone non-decreasing in the absolute edge, with values in {0,...,5}. -/
theorem edge_to_stars_staircase_monotone :
    (∀ e : ℚ,
      (15 ≤ |e| → edge_to_stars e = 5) ∧
      (12 ≤ |e| ∧ |e| < 15 → edge_to_stars e = 4) ∧
      (9 ≤ |e| ∧ |e| < 12 → edge_to_stars e = 3) ∧
      (7 ≤ |e| ∧ |e| < 9 → edge_to_stars e = 2) ∧
      (5 ≤ |e| ∧ |e| < 7 → edge_to_stars e = 1) ∧
      (|e| < 5 → edge_to_stars e = 0)) ∧
    (∀ a b : ℚ, |a| ≤ |b| → edge_to_stars a ≤ edge_to_stars b) ∧
    (∀ e : ℚ, edge_to_stars e ≤ 5) := by
  refine ⟨fun e => ?_, fun a b hab => ?_, fun e => ?_⟩
  · simp only [edge_to_stars]
    refine ⟨fun h => ?_, fun h => ?_, fun h => ?_, fun h => ?_, fun h => ?_, fun h => ?_⟩ <;>
      [skip; obtain ⟨h, h2⟩ := h; obtain ⟨h, h2⟩ := h; obtain ⟨h, h2⟩ := h;
        obtain ⟨h, h2⟩ := h; skip] <;>
      split_ifs <;> first | rfl | (exfalso; linarith)
  · simp only [edge_to_stars]
    split_ifs <;> first | omega | (exfalso; linarith)
  · simp only [edge_to_stars]
    split_ifs <;> omega

/-- Witness for the staircase and monotonicity at concrete edges. -/
theorem edge_to_stars_staircase_monotone_witness :
    edge_to_stars (16 : ℚ) = 5 ∧ edge_to_stars (3 : ℚ) ≤ edge_to_stars (-10 : ℚ) :=
  ⟨(edge_to_stars_staircase_monotone.1 16).1 (by decide),
   edge_to_stars_staircase_monotone.2.1 3 (-10) (by decide)⟩

/-- C8: compute_kelly_stake recommends exactly 0.0 with unchanged bankroll
whenever probability*odds - 1 ≤ 0 or odds - 1 ≤ 0; otherwise it recommends
bankroll * ((probability*odds-1)/(odds-1)) * fraction rounded to 2 decimal
places, which is never negative for nonnegative bankroll and fraction; the
two spec examples hold: (0.60, 1.91, 10000, 0.5) gives a stake strictly
between 0 and 5000, and (0.40, 1.91, 10000, 0.5) gives exactly 0.0. -/
theorem compute_kelly_stake_spec (probability odds bankroll fraction : ℚ)
    (hb : 0 ≤ bankroll) (hf : 0 ≤ fraction) :
    ((probability * odds - 1 ≤ 0 ∨ odds - 1 ≤ 0) →
        compute_kelly_stake probability odds bankroll fraction =
          { recommended_stake := 0, bankroll_after_bet := bankroll }) ∧
    (0 < probability * odds - 1 → 0 < odds - 1 →
        (compute_kelly_stake probability odds bankroll fraction).recommended_stake =
          pyRound2 (bankroll * ((probability * odds - 1) / (odds - 1)) * fraction)) ∧
    0 ≤ (compute_kelly_stake probability odds bankroll fraction).recommended_stake ∧
    0 < (compute_kelly_stake (6/10) (191/100) 10000 (1/2)).recommended_stake ∧
    (compute_kelly_stake (6/10) (191/100) 10000 (1/2)).recommended_stake < 5000 ∧
    compute_kelly_stake (4/10) (191/100) 10000 (1/2) =
      { recommended_stake := 0, bankroll_after_bet := 10000 } := by
  have hex : (compute_kelly_stake (6/10) (191/100) 10000 (1/2)).recommended_stake =
      pyRound2 (73000/91) := by
    simp only [compute_kelly_stake]
    rw [if_neg (by norm_num)]
    norm_num
  refine ⟨fun h => ?_, fun h1 h2 => ?_, ?_, ?_, ?_, ?_⟩
  · simp only [compute_kelly_stake]
    rw [if_pos (Or.elim h Or.inr Or.inl)]
  · simp only [compute_kelly_stake]
    rw [if_neg (by push_neg; exact ⟨h2, h1⟩)]
    rw [mul_assoc]
  · simp only [compute_kelly_stake]
    split_ifs with h
    · simp
    · push_neg at h
      exact pyRound2_nonneg
        (mul_nonneg hb (mul_nonneg (le_of_lt (div_pos h.2 h.1)) hf))
  · rw [hex]
    have h := lt_pyRound2 (73000/91)
    linarith [h, (by norm_num : (0:ℚ) < 73000/91 - 1/100)]
  · rw [hex]
    have h := pyRound2_le (73000/91)
    linarith [h, (by norm_num : (73000/91 : ℚ) + 1/200 < 5000)]
  · simp only [compute_kelly_stake]
    rw [if_pos (Or.inr (by norm_num))]

/-- Witness instantiating the Kelly theorem at a concrete input. -/
theorem compute_kelly_stake_spec_witness :
    compute_kelly_stake 0 2 3 1 =
      { recommended_stake := 0, bankroll_after_bet := 3 } :=
  (compute_kelly_stake_spec 0 2 3 1 (by decide) (by decide)).1 (Or.inl (by simp))

/-- C2: run_possession_simulation is a pure function of its arguments whose
dependence on game_id goes only through game_id mod 1_000_000: any two
calls whose game ids agree modulo 1_000_000 — in particular any two calls
with identical arguments — return identical values in every output field,
for every model of the seeded numpy stream. -/
theorem run_possession_simulation_deterministic (gen : ℤ → ℕ → ℚ) (sqrtA : ℚ → ℚ)
    (g1 g2 : ℤ) (phs pas hv av sl tl : ℚ) (n : ℕ)
    (h : g1 % 1000000 = g2 % 1000000) :
    run_possession_simulation gen sqrtA g1 phs pas hv av sl tl n =
      run_possession_simulation gen sqrtA g2 phs pas hv av sl tl n := by
  unfold run_possession_simulation sim_home_samples sim_away_samples
  rw [h]

/-- Witness simulating the same contest via two mod-equal game ids. -/
theorem run_possession_simulation_deterministic_witness :
    run_possession_simulation (fun _ _ => 0) (fun _ => 8) 42 112 106 64 64 (-4) 218 10000 =
      run_possession_simulation (fun _ _ => 0) (fun _ => 8) 1000042 112 106 64 64 (-4) 218 10000 :=
  run_possession_simulation_deterministic (fun _ _ => 0) (fun _ => 8)
    42 1000042 112 106 64 64 (-4) 218 10000 (by decide)

/-- C4: run_possession_simulation draws n_sim samples per side (the std of
each normal draw being max(sqrt(variance), 8) by definition of the sample
batches), clips every sample into 70–170, returns the cover and over
probabilities as the fractions of draws with margin + spread_line > 0 and
total > total_line — both therefore in [0, 1] — and reports
simulation_count = n_sim. -/
theorem run_possession_simulation_outputs (gen : ℤ → ℕ → ℚ) (sqrtA : ℚ → ℚ)
    (g : ℤ) (phs pas hv av sl tl : ℚ) (n : ℕ) (hn : 0 < n) :
    (run_possession_simulation gen sqrtA g phs pas hv av sl tl n).simulation_count = n ∧
    (sim_home_samples gen sqrtA g phs hv n).length = n ∧
    (sim_away_samples gen sqrtA g pas av n).length = n ∧
    (∀ x ∈ sim_home_samples gen sqrtA g phs hv n, 70 ≤ x ∧ x ≤ 170) ∧
    (∀ x ∈ sim_away_samples gen sqrtA g pas av n, 70 ≤ x ∧ x ≤ 170) ∧
    (run_possession_simulation gen sqrtA g phs pas hv av sl tl n).spread_cover_probability =
      (((List.zipWith (fun a b => a - b) (sim_home_samples gen sqrtA g phs hv n)
          (sim_away_samples gen sqrtA g pas av n)).filter
            fun m => decide (0 < m + sl)).length : ℚ) / (n : ℚ) ∧
    (run_possession_simulation gen sqrtA g phs pas hv av sl tl n).over_probability =
      (((List.zipWith (fun a b => a + b) (sim_home_samples gen sqrtA g phs hv n)
          (sim_away_samples gen sqrtA g pas av n)).filter
            fun t => decide (tl < t)).length : ℚ) / (n : ℚ) ∧
    0 ≤ (run_possession_simulation gen sqrtA g phs pas hv av sl tl n).spread_cover_probability ∧
    (run_possession_simulation gen sqrtA g phs pas hv av sl tl n).spread_cover_probability ≤ 1 ∧
    0 ≤ (run_possession_simulation gen sqrtA g phs pas hv av sl tl n).over_probability ∧
    (run_possession_simulation gen sqrtA g phs pas hv av sl tl n).over_probability ≤ 1 := by
  have hlh : (sim_home_samples gen sqrtA g phs hv n).length = n := by
    simp [sim_home_samples]
  have hla : (sim_away_samples gen sqrtA g pas av n).length = n := by
    simp [sim_away_samples]
  have hzl : (List.zipWith (fun a b => a - b) (sim_home_samples gen sqrtA g phs hv n)
      (sim_away_samples gen sqrtA g pas av n)).length = n := by
    rw [List.length_zipWith, hlh, hla, min_self]
  have hzl2 : (List.zipWith (fun a b => a + b) (sim_home_samples gen sqrtA g phs hv n)
      (sim_away_samples gen sqrtA g pas av n)).length = n := by
    rw [List.length_zipWith, hlh, hla, min_self]
  have hcov : (run_possession_simulation gen sqrtA g phs pas hv av sl tl n).spread_cover_probability =
      (((List.zipWith (fun a b => a - b) (sim_home_samples gen sqrtA g phs hv n)
          (sim_away_samples gen sqrtA g pas av n)).filter
            fun m => decide (0 < m + sl)).length : ℚ) / (n : ℚ) := by
    simp only [run_possession_simulation]
    rw [meanQ_indicator (fun m => 0 < m + sl), hzl]
  have hover : (run_possession_simulation gen sqrtA g phs pas hv av sl tl n).over_probability =
      (((List.zipWith (fun a b => a + b) (sim_home_samples gen sqrtA g phs hv n)
          (sim_away_samples gen sqrtA g pas av n)).filter
            fun t => decide (tl < t)).length : ℚ) / (n : ℚ) := by
    simp only [run_possession_simulation]
    rw [meanQ_indicator (fun t => tl < t), hzl2]
  have hnq : (0:ℚ) < n := by exact_mod_cast hn
  have hfrac : ∀ (l : List ℚ) (p : ℚ → Bool), l.length = n →
      0 ≤ ((l.filter p).length : ℚ) / (n : ℚ) ∧ ((l.filter p).length : ℚ) / (n : ℚ) ≤ 1 := by
    intro l p hl
    constructor
    · positivity
    · rw [div_le_one hnq]
      exact_mod_cast hl ▸ List.length_filter_le p l
  refine ⟨rfl, hlh, hla, ?_, ?_, hcov, hover, ?_, ?_, ?_, ?_⟩
  · intro x hx
    simp only [sim_home_samples, List.mem_map] at hx
    obtain ⟨i, _, rfl⟩ := hx
    exact clipQ_bounds _ 70 170 (by norm_num)
  · intro x hx
    simp only [sim_away_samples, List.mem_map] at hx
    obtain ⟨i, _, rfl⟩ := hx
    exact clipQ_bounds _ 70 170 (by norm_num)
  · rw [hcov]
    exact (hfrac _ _ hzl).1
  · rw [hcov]
    exact (hfrac _ _ hzl).2
  · rw [hover]
    exact (hfrac _ _ hzl2).1
  · rw [hover]
    exact (hfrac _ _ hzl2).2

/-- Witness at the §8 example inputs (game 42, n_sim = 10000). -/
theorem run_possession_simulation_outputs_witness :
    (run_possession_simulation (fun _ _ => 0) (fun _ => 8)
        42 112 106 64 64 (-4) 218 10000).simulation_count = 10000 ∧
    0 ≤ (run_possession_simulation (fun _ _ => 0) (fun _ => 8)
        42 112 106 64 64 (-4) 218 10000).spread_cover_probability := by
  obtain ⟨h1, _, _, _, _, _, _, h8, _⟩ :=
    run_possession_simulation_outputs (fun _ _ => 0) (fun _ => 8)
      42 112 106 64 64 (-4) 218 10000 (by decide)
  exact ⟨h1, h8⟩

/-- C5: the orchestrator blends the simulation probability with the
classifier probability using the fixed weights 0.6 and 0.4 when the
classifier probability is available, and returns the simulation
probability exactly when it is None — for both the spread and the total
decisions. -/
theorem combined_prob_blend :
    (∀ mc p : ℚ, combined_spread_prob mc (some p) = 0.6 * mc + 0.4 * p) ∧
    (∀ mc : ℚ, combined_spread_prob mc none = mc) ∧
    (∀ mc p : ℚ, combined_total_prob mc (some p) = 0.6 * mc + 0.4 * p) ∧
    (∀ mc : ℚ, combined_total_prob mc none = mc) ∧
    MC_WEIGHT = 0.6 ∧ CLASSIFIER_WEIGHT = 0.4 :=
  ⟨fun _ _ => rfl, fun _ => rfl, fun _ _ => rfl, fun _ => rfl, rfl, rfl⟩

/-- C6: the produced prediction feature row carries exactly the fixed
FEATURE_COLUMNS schema, binds every schema name to a rational value (never
missing — and rationals cannot be NaN), and a side with zero prior games
gets every feature name prefixed for that side bound to 0.0 rather than
omitted. -/
theorem feature_row_complete :
    (∀ (hg ag : List TeamGame) (d : ℤ) (stdQ : List ℚ → ℚ),
        (build_prediction_features hg ag d stdQ).map Prod.fst = FEATURE_COLUMNS) ∧
    (∀ (hg ag : List TeamGame) (d : ℤ) (stdQ : List ℚ → ℚ) (c : String),
        c ∈ FEATURE_COLUMNS →
          ∃ q : ℚ, (build_prediction_features hg ag d stdQ).lookup c = some q) ∧
    (∀ (opp : List TeamGame) (d : ℤ) (side : String) (stdQ : List ℚ → ℚ) (c : String),
        c ∈ FEATURE_COLUMNS → strStarts c side = true →
          (computeTeamFeatures [] opp d side stdQ).lookup c = some 0) := by
  refine ⟨fun hg ag d stdQ => ?_, fun hg ag d stdQ c hc => ?_, fun opp d side stdQ c hc hs => ?_⟩
  · simp only [build_prediction_features]
    exact map_fst_pairs _ FEATURE_COLUMNS
  · simp only [build_prediction_features]
    exact ⟨_, lookup_map_pair _ FEATURE_COLUMNS c hc⟩
  · simp only [computeTeamFeatures, List.isEmpty_nil, if_true]
    exact lookup_map_zero_append _ _ c (List.mem_filter.mpr ⟨hc, hs⟩)

/-- Witness: the completeness and zero-fill facts at the home_pace column
with empty histories. -/
theorem feature_row_complete_witness :
    (∃ q : ℚ, (build_prediction_features [] [] 0 fun _ => 0).lookup "home_pace" = some q) ∧
    (computeTeamFeatures [] [] 0 "home" fun _ => 0).lookup "home_pace" = some 0 :=
  ⟨feature_row_complete.2.1 [] [] 0 (fun _ => 0) "home_pace" (by decide),
   feature_row_complete.2.2 [] 0 "home" (fun _ => 0) "home_pace" (by decide) (by decide)⟩

/-- Any successful result of the training step has upload_ok set. -/
theorem ensure_models_train_ok_upload {fc : List String} {env : LifecycleEnv}
    {tb : TaggedBundle} (h : ensure_models_train fc env = .ok tb) :
    env.upload_ok = true := by
  unfold ensure_models_train at h
  by_cases h0 : env.training_rows = 0
  · rw [if_pos h0] at h
    cases h
  · rw [if_neg h0] at h
    split at h
    · cases h
    · by_cases hu : env.upload_ok = true
      · exact hu
      · rw [if_neg hu] at h
        cases h

/-- Any successful step-3 result tagged trained has upload_ok set. -/
theorem ensure_models_step3_trained_upload {fc : List String} {env : LifecycleEnv}
    {tb : TaggedBundle} (h : ensure_models_step3 fc env = .ok tb)
    (hs : tb.source = ModelSource.trained) : env.upload_ok = true := by
  unfold ensure_models_step3 at h
  split at h
  · by_cases hn : env.new_games < MIN_RETRAIN_GAMES
    · rw [if_pos hn] at h
      injection h with h2
      rw [← h2] at hs
      simp at hs
    · rw [if_neg hn] at h
      exact ensure_models_train_ok_upload h
  · exact ensure_models_train_ok_upload h

/-- Any successful restore-phase result tagged trained has upload_ok set. -/
theorem ensure_models_restore_trained_upload {fc : List String} {env : LifecycleEnv}
    {tb : TaggedBundle} (h : ensure_models_restore fc env = .ok tb)
    (hs : tb.source = ModelSource.trained) : env.upload_ok = true := by
  unfold ensure_models_restore at h
  by_cases hr : env.restore_ok = true
  · rw [if_pos hr] at h
    split at h
    · injection h with h2
      rw [← h2] at hs
      simp at hs
    · exact ensure_models_step3_trained_upload h hs
  · rw [if_neg hr] at h
    exact ensure_models_step3_trained_upload h hs

/-- With no cached bundle and no restorable remote bundle, ensure_models
reaches the training step. -/
theorem ensure_models_reaches_train {fc : List String} {env : LifecycleEnv}
    (force : Bool) (hc : env.cached_models = none)
    (hr : env.restore_ok = false ∨ env.restored_models = none) :
    ensure_models fc env force = ensure_models_train fc env := by
  have hstep : ensure_models_step3 fc env = ensure_models_train fc env := by
    unfold ensure_models_step3
    rw [hc]
  have hrest : ensure_models_restore fc env = ensure_models_train fc env := by
    unfold ensure_models_restore
    rcases hr with hr | hm
    · rw [hr]
      simpa using hstep
    · by_cases hro : env.restore_ok = true
      · rw [if_pos hro, hm]
        exact hstep
      · rw [if_neg hro]
        exact hstep
  unfold ensure_models
  rw [hc]
  exact hrest

/-- C7: the retrain path fails fast and never silently succeeds unsynced:
an empty training frame raises, train_models raises when the feature
schema has fewer than 30 columns, a failed upload after training raises,
and any bundle returned tagged trained had a successful upload. -/
theorem ensure_models_fail_fast (feature_cols : List String) (env : LifecycleEnv)
    (force : Bool) :
    (env.cached_models = none → (env.restore_ok = false ∨ env.restored_models = none) →
        env.training_rows = 0 →
        ensure_models feature_cols env force =
          .error "No historical data available for training") ∧
    (∀ fitted : ModelBundle, feature_cols.length < 30 →
        train_models feature_cols fitted =
          .error "Feature count < 30 - pipeline requires minimum 30 features") ∧
    (env.cached_models = none → (env.restore_ok = false ∨ env.restored_models = none) →
        env.training_rows ≠ 0 → 30 ≤ feature_cols.length → env.upload_ok = false →
        ensure_models feature_cols env force =
          .error "Failed to upload models to Supabase Storage") ∧
    (∀ tb : TaggedBundle, ensure_models feature_cols env force = .ok tb →
        tb.source = ModelSource.trained → env.upload_ok = true) := by
  refine ⟨fun hc hr h0 => ?_, fun fitted hw => ?_, fun hc hr h0 hw hu => ?_,
    fun tb h hs => ?_⟩
  · rw [ensure_models_reaches_train force hc hr]
    unfold ensure_models_train
    rw [if_pos h0]
  · unfold train_models
    rw [if_pos hw]
  · rw [ensure_models_reaches_train force hc hr]
    unfold ensure_models_train
    rw [if_neg h0]
    unfold train_models
    rw [if_neg (by omega)]
    simp [hu]
  · unfold ensure_models at h
    split at h
    · by_cases hf : force = true
      · rw [if_pos hf] at h
        exact ensure_models_restore_trained_upload h hs
      · rw [if_neg hf] at h
        injection h with h2
        rw [← h2] at hs
        simp at hs
    · exact ensure_models_restore_trained_upload h hs

/-- Witness: the empty-frame, narrow-schema and failed-upload errors, and
the upload consequence, at concrete environments. -/
theorem ensure_models_fail_fast_witness :
    ensure_models FEATURE_COLUMNS
        { cached_models := none, restore_ok := false, restored_models := none,
          new_games := 0, training_rows := 0, fitted_bundle := ⟨"v2"⟩, upload_ok := true }
        false = .error "No historical data available for training" ∧
    train_models ["f"] ⟨"v2"⟩ =
      .error "Feature count < 30 - pipeline requires minimum 30 features" ∧
    ensure_models FEATURE_COLUMNS
        { cached_models := none, restore_ok := false, restored_models := none,
          new_games := 0, training_rows := 7, fitted_bundle := ⟨"v2"⟩, upload_ok := false }
        false = .error "Failed to upload models to Supabase Storage" :=
  ⟨(ensure_models_fail_fast FEATURE_COLUMNS _ false).1 rfl (Or.inl rfl) rfl,
   (ensure_models_fail_fast ["f"] ⟨none, false, none, 0, 0, ⟨"v2"⟩, true⟩ false).2.1
     ⟨"v2"⟩ (by decide),
   (ensure_models_fail_fast FEATURE_COLUMNS _ false).2.2.1 rfl (Or.inl rfl)
     (by decide) (by decide) rfl⟩

/-- C1 (divergence witness, evaluating the code at the failing input): a
forced call that finds a cached bundle, cannot restore from the remote
store, and sees fewer than MIN_RETRAIN_GAMES new finished games returns
the cached bundle tagged cached — it does not retrain, contradicting the
claimed cache-then-restore-then-train protocol under force. -/
theorem ensure_models_force_reuses_cached :
    ensure_models FEATURE_COLUMNS
        { cached_models := some ⟨"v5"⟩, restore_ok := false, restored_models := none,
          new_games := 0, training_rows := 120, fitted_bundle := ⟨"v6"⟩, upload_ok := true }
        true = .ok ⟨⟨"v5"⟩, ModelSource.cached⟩ := rfl

/-- C3 (divergence witness): recording two predictions for the same
contest via save_prediction leaves two stored rows marked final — the
previously final record is never demoted. -/
theorem save_prediction_two_finals :
    count_final (save_prediction (save_prediction [] 42) 42) 42 = 2 := rfl

/-- C10: the degradation detector needs a minimum sample: with fewer than
10 joined final predictions it returns False regardless of accuracy, as it
does when the query raises or when no joined row has a non-null line; with
force=False, should_retrain can then only fire via the 50-new-games gate
or a missing model. -/
theorem check_performance_degradation_min_sample :
    (∀ rows : List PredRow, rows.length < 10 →
        check_performance_degradation (some rows) = false) ∧
    check_performance_degradation none = false ∧
    (∀ rows : List PredRow,
        (∀ r ∈ rows, r.live_spread = none ∧ r.live_total = none) →
          check_performance_degradation (some rows) = false) ∧
    (∀ (rows : List PredRow) (new_games : ℕ) (loaded : Option ModelBundle),
        rows.length < 10 →
          should_retrain false (some rows) new_games loaded =
            (decide (MIN_RETRAIN_GAMES ≤ new_games) || loaded.isNone)) := by
  refine ⟨check_perf_lt10, rfl, fun rows hall => ?_, fun rows new_games loaded h => ?_⟩
  · by_cases hl : rows.length < 10
    · exact check_perf_lt10 rows hl
    · have hz : degradationCounts rows = (0, 0) := foldl_degStep_const rows hall (0, 0)
      simp [check_performance_degradation, hl, hz]
  · simp [should_retrain, check_perf_lt10 rows h]

/-- Witness: the detector and the retrain gate on an empty join result. -/
theorem check_performance_degradation_min_sample_witness :
    check_performance_degradation (some []) = false ∧
    should_retrain false (some []) 60 (none : Option ModelBundle) =
      (decide (MIN_RETRAIN_GAMES ≤ 60) || (none : Option ModelBundle).isNone) :=
  ⟨check_performance_degradation_min_sample.1 [] (by decide),
   check_performance_degradation_min_sample.2.2.2 [] 60 none (by decide)⟩

end NbaQuant
